import Mathlib

/-!
Shallow embedding of the SamTools Grassroots service
(`src/src/samtools_service.c`), covering the index registry and its
configuration loading (`GetSamToolsServiceConfig`), the index resolver
(`GetSelectedIndexData`), the scaffold fetch-and-format algorithm
(`GetScaffoldData`), and the request orchestration (`RunSamToolsService`).

Modelling conventions:
* C strings that may be `NULL` become `Option String`.
* The `ByteBuffer` is a `List Char` together with a tick counter; every
  append consults an oracle `ok : Nat → Bool` at the current tick, modelling
  the possibility that `AppendToByteBuffer` fails (allocation failure).
* The buffer returned by `fai_fetch` is modelled as a total function
  `mem : Nat → Char` plus a length `len`: indices below `len` hold the
  sequence bytes, indices at or above `len` model unspecified heap contents
  beyond the fetched sequence (the C code can read these out of bounds).
-/

set_option autoImplicit false

namespace SamtoolsService

/-- One entry of the index registry: the `IndexData` struct.  Each field is
the result of `GetJSONString`, which yields `NULL` (here `none`) when the
key is absent from the configuration object. -/
structure IndexData where
  id_blast_db_name_s : Option String
  id_fasta_filename_s : Option String
  deriving DecidableEq, Repr

/-- A JSON object restricted to string-valued fields, as consumed by
`GetSamToolsServiceConfig`. -/
abbrev JsonObj := List (String × String)

/-- `GetJSONString`: look up a string field of a JSON object, `none` when
the key is absent. -/
def getJSONString (obj : JsonObj) (key : String) : Option String :=
  (obj.find? (fun kv => kv.1 = key)).map (fun kv => kv.2)

/-- The `"Blast database"` configuration key (`BLASTDB_S`). -/
def BLASTDB_S : String := "Blast database"

/-- The `"Fasta"` configuration key (`FASTA_FILENAME_S`). -/
def FASTA_FILENAME_S : String := "Fasta"

/-- `GetSamToolsServiceConfig`, array case: each object of the
`index_files` array yields one `IndexData` whose two fields are read with
`GetJSONString` (so an absent key gives `none`). -/
def GetSamToolsServiceConfig (index_files : List JsonObj) : List IndexData :=
  index_files.map (fun obj => ⟨getJSONString obj BLASTDB_S, getJSONString obj FASTA_FILENAME_S⟩)

/-- The scan inside `GetSelectedIndexData`: walk the registry in order; for
each entry, if the Fasta filename is present (non-`NULL`) and equals the
requested identifier return the entry, else if the blast database name is
present and equals the requested identifier return the entry, else continue. -/
def findIndexData : List IndexData → String → Option IndexData
  | [], _ => none
  | e :: rest, s =>
      if e.id_fasta_filename_s = some s then some e
      else if e.id_blast_db_name_s = some s then some e
      else findIndexData rest s

/-- `GetSelectedIndexData`: the requested identifier comes from the
`SS_INDEX` string parameter; `none` models both a failed parameter lookup
and a `NULL` value, in which case no scan happens and `NULL` is returned. -/
def GetSelectedIndexData (registry : List IndexData) (index_s : Option String) :
    Option IndexData :=
  match index_s with
  | some s => findIndexData registry s
  | none => none

/-- The per-entry match test used by the resolver, as a single predicate:
an entry matches when its (present) Fasta path or its (present) blast
database name equals the requested identifier. -/
def entryMatches (e : IndexData) (s : String) : Bool :=
  decide (e.id_fasta_filename_s = some s) || decide (e.id_blast_db_name_s = some s)

theorem findIndexData_eq_find? (registry : List IndexData) (s : String) :
    findIndexData registry s = registry.find? (fun e => entryMatches e s) := by
  induction registry with
  | nil => rfl
  | cons e rest ih =>
      by_cases h1 : e.id_fasta_filename_s = some s
      · simp [findIndexData, h1, entryMatches, List.find?]
      · by_cases h2 : e.id_blast_db_name_s = some s
        · simp [findIndexData, h1, h2, entryMatches, List.find?]
        · simp [findIndexData, h1, h2, entryMatches, List.find?, ih]

/-- C6 (amended): for a present requested identifier — the empty string
included, since the code only checks the pointer for `NULL`, never for
emptiness — `GetSelectedIndexData` returns exactly the first entry in
registry order whose backing Fasta path or blast-database identifier is
string-equal to the request (two independent match keys per entry), and it
returns `NULL` when the identifier is absent; the scan is a pure read-only
function. -/
theorem c6_resolver_first_match (registry : List IndexData) (s : String) :
    GetSelectedIndexData registry (some s) =
      registry.find? (fun e => entryMatches e s) ∧
    GetSelectedIndexData registry none = none :=
  ⟨findIndexData_eq_find? registry s, rfl⟩

/-- C6 counterexample: with a registry whose single entry has the empty
string as its Fasta path, the empty requested identifier does _not_ resolve
to `NotFound`: the entry is returned, refuting "returns NotFound (NULL)
when the requested identifier is empty". -/
theorem c6_counterexample :
    GetSelectedIndexData [⟨none, some ""⟩] (some "") = some ⟨none, some ""⟩ ∧
    ¬ GetSelectedIndexData [⟨none, some ""⟩] (some "") = none := by
  decide

/-- C7 (amended): a match can only happen on a present key — in particular
an entry whose Fasta field is missing is excluded from the path-key
comparison — but such an entry can still be matched and returned through
its blast-database identifier, so resolution can return an entry without a
backing path. -/
theorem c7_match_implies_key (registry : List IndexData) (s : String) (e : IndexData)
    (h : GetSelectedIndexData registry (some s) = some e) :
    e.id_fasta_filename_s = some s ∨ e.id_blast_db_name_s = some s := by
  induction registry with
  | nil => exact absurd h (by simp [GetSelectedIndexData, findIndexData])
  | cons a rest ih =>
      rw [GetSelectedIndexData] at h
      rw [findIndexData] at h
      by_cases h1 : a.id_fasta_filename_s = some s
      · rw [if_pos h1] at h
        cases h
        exact Or.inl h1
      · rw [if_neg h1] at h
        by_cases h2 : a.id_blast_db_name_s = some s
        · rw [if_pos h2] at h
          cases h
          exact Or.inr h2
        · rw [if_neg h2] at h
          exact ih h

/-- Witness for `c7_match_implies_key` at a concrete registry. -/
theorem c7_match_implies_key_witness :
    (⟨some "db1", none⟩ : IndexData).id_fasta_filename_s = some "db1" ∨
    (⟨some "db1", none⟩ : IndexData).id_blast_db_name_s = some "db1" :=
  c7_match_implies_key [⟨some "db1", none⟩] "db1" ⟨some "db1", none⟩ (by decide)

/-- C7 counterexample: a configured entry carrying only the
`"Blast database"` key (its `"Fasta"` field missing, hence `none`) is still
matched and returned by the resolver via its blast-database identifier, so
resolution does return an entry without a backing path. -/
theorem c7_counterexample :
    GetSelectedIndexData (GetSamToolsServiceConfig [[(BLASTDB_S, "db1")]]) (some "db1") =
      some ⟨some "db1", none⟩ ∧
    (GetSamToolsServiceConfig [[(BLASTDB_S, "db1")]]).all
      (fun e => e.id_fasta_filename_s = none) = true := by
  decide

/-- The output `ByteBuffer` together with a tick counter used to consult
the append oracle. -/
structure BufSt where
  data : List Char
  tick : Nat
  deriving DecidableEq, Repr

/-- `AppendToByteBuffer`: append `bytes` to the buffer, or fail (leaving
the buffer contents unchanged) when the oracle refuses the current tick. -/
def appendBB (ok : Nat → Bool) (st : BufSt) (bytes : List Char) : Bool × BufSt :=
  if ok st.tick then (true, ⟨st.data ++ bytes, st.tick + 1⟩)
  else (false, ⟨st.data, st.tick + 1⟩)

/-- The buffer returned by a successful `fai_fetch`: `len` is the reported
`seq_len` and `mem i` is the byte at offset `i` of the returned allocation;
offsets at or above `len` model unspecified memory beyond the sequence. -/
structure FetchResult where
  mem : Nat → Char
  len : Nat

/-- A loaded `faidx_t` index: maps a scaffold name to the fetch result, or
`none` when `fai_fetch` fails for that name. -/
abbrev Fai := String → Option FetchResult

/-- Read `n` raw bytes starting at offset `off` of a fetched allocation
(this is what `AppendToByteBuffer (buffer_p, current_p, n)` copies). -/
def readMem (mem : Nat → Char) (off n : Nat) : List Char :=
  (List.range n).map (fun k => mem (off + k))

/-- The `while (loop_flag && success_flag)` loop of `GetScaffoldData` for
`break_index > 0`.  Each iteration appends a full `brk`-byte block starting
at offset `i` and then a newline, and only afterwards tests
`i + break_index < seq_len`: on success of that test `i` advances by `brk`
and the loop continues, otherwise `loop_flag` is cleared and the loop exits
with `i` still at the start of the block just emitted.  The result is
`(success_flag, i, buffer)`.  The `fuel` argument only bounds the number of
iterations so the recursion is structural; `wrapLoopF_isSome` below shows
the fuel used at the (sole) call site can never run out. -/
def wrapLoopF : Nat → (Nat → Bool) → (Nat → Char) → Nat → Nat → Nat → BufSt →
    Option (Bool × Nat × BufSt)
  | 0, _, _, _, _, _, _ => none
  | fuel + 1, ok, mem, seqLen, brk, i, st =>
      match appendBB ok st (readMem mem i brk) with
      | (false, st1) => some (false, i, st1)
      | (true, st1) =>
          match appendBB ok st1 ['\n'] with
          | (false, st2) => some (false, i, st2)
          | (true, st2) =>
              if i + brk < seqLen then wrapLoopF fuel ok mem seqLen brk (i + brk) st2
              else some (true, i, st2)

theorem wrapLoopF_isSome (fuel : Nat) (ok : Nat → Bool) (mem : Nat → Char)
    (seqLen brk : Nat) :
    ∀ i st, 0 < brk → 0 < fuel → seqLen ≤ i + fuel * brk →
      (wrapLoopF fuel ok mem seqLen brk i st).isSome := by
  induction fuel with
  | zero => intro i st _ hf _; exact absurd hf (by simp)
  | succ fuel ih =>
      intro i st hb _ hle
      have hexp : (fuel + 1) * brk = fuel * brk + brk := by ring
      rw [wrapLoopF]
      split
      · simp
      · split
        · simp
        · split
          · next hlt =>
              apply ih _ _ hb
              · rcases Nat.eq_zero_or_pos fuel with hf0 | hfp
                · subst hf0
                  omega
                · exact hfp
              · omega
          · simp

/-- Witness for `wrapLoopF_isSome` at concrete arguments. -/
theorem wrapLoopF_isSome_witness :
    (wrapLoopF 3 (fun _ => true) (fun _ => 'A') 20 10 0 ⟨[], 0⟩).isSome :=
  wrapLoopF_isSome 3 (fun _ => true) (fun _ => 'A') 20 10 0 ⟨[], 0⟩ (by decide)
    (by decide) (by decide)

/-- The tail step after the loop: when `seq_len > i` the remaining
`seq_len - i` bytes starting at offset `i` are appended followed by a
newline, and success requires both appends to succeed; otherwise the buffer
is left alone and success is kept. -/
def wrapTail (ok : Nat → Bool) (mem : Nat → Char) (seqLen i : Nat) (st : BufSt) :
    Bool × BufSt :=
  if seqLen > i then
    match appendBB ok st (readMem mem i (seqLen - i)) with
    | (false, st1) => (false, st1)
    | (true, st1) => appendBB ok st1 ['\n']
  else (true, st)

/-- The body of `GetScaffoldData` once `fai_load` has succeeded: append the
header `">" + scaffold_name + "\n"`, fetch the sequence, then either run the
wrap loop and tail (for `break_index > 0`) or append the whole sequence —
`seq_len` bytes, no trailing newline — for `break_index <= 0`.  Returns the
`success_flag` and the final buffer contents. -/
def getScaffoldBody (f : Fai) (scaffold_name_s : String) (break_index : Int)
    (ok : Nat → Bool) (buf : List Char) : Bool × List Char :=
  match appendBB ok ⟨buf, 0⟩ (('>' :: scaffold_name_s.data) ++ ['\n']) with
  | (false, st1) => (false, st1.data)
  | (true, st1) =>
      match f scaffold_name_s with
      | none => (false, st1.data)
      | some r =>
          if 0 < break_index then
            match wrapLoopF (r.len + 1) ok r.mem r.len break_index.toNat 0 st1 with
            | none => (false, st1.data)
            | some (s, i, st2) =>
                if s then
                  match wrapTail ok r.mem r.len i st2 with
                  | (s2, st3) => (s2, st3.data)
                else (false, st2.data)
          else
            match appendBB ok st1 (readMem r.mem 0 r.len) with
            | (s, st2) => (s, st2.data)

/-- Events on the `faidx_t` handle: `fai_load` success and `fai_destroy`. -/
inductive FaiEvent where
  | opened
  | closed
  deriving DecidableEq, Repr

/-- `GetScaffoldData`.  The `fai` argument is the outcome of
`fai_load (filename_s)`: `none` models a load failure, in which case the
function only logs and returns `false` with the buffer untouched.  On a
successful load the body runs and `fai_destroy` is reached on the single
exit of the enclosing block, recorded in the event trace. -/
def getScaffoldData (fai : Option Fai) (scaffold_name_s : String) (break_index : Int)
    (ok : Nat → Bool) (buf : List Char) : Bool × List Char × List FaiEvent :=
  match fai with
  | none => (false, buf, [])
  | some f =>
      let r := getScaffoldBody f scaffold_name_s break_index ok buf
      (r.1, r.2, [FaiEvent.opened, FaiEvent.closed])

/-- An append oracle under which every buffer write succeeds. -/
def allOk : Nat → Bool := fun _ => true

/-- The fetched allocation holding the byte sequence `seq` followed by
unspecified contents, all modelled by the byte `junk`. -/
def memOf (seq : List Char) (junk : Char) : Nat → Char :=
  fun i => seq.getD i junk

/-- An index holding exactly one scaffold, `name`, whose fetched sequence
is `seq` (so `seq_len = seq.length`); bytes past the sequence read `junk`. -/
def singleFai (name : String) (seq : List Char) (junk : Char) : Fai :=
  fun s => if s = name then some ⟨memOf seq junk, seq.length⟩ else none

theorem readMem_memOf (seq : List Char) (junk : Char) :
    readMem (memOf seq junk) 0 seq.length = seq := by
  apply List.ext_getElem
  · simp [readMem]
  · intro i h1 h2
    simp only [readMem, memOf, List.getElem_map, List.getElem_range, Nat.zero_add]
    rw [List.getD_eq_getElem seq junk h2]

/-- C9: on every execution of `GetScaffoldData` — over any load outcome,
any fetch outcome, any wrap width and any pattern of buffer-write failures —
the number of `fai_destroy` events equals the number of successful
`fai_load` events: the index handle never outlives the call. -/
theorem c9_handle_released (fai : Option Fai) (scaffold_name_s : String)
    (break_index : Int) (ok : Nat → Bool) (buf : List Char) :
    ((getScaffoldData fai scaffold_name_s break_index ok buf).2.2.count FaiEvent.opened) =
      ((getScaffoldData fai scaffold_name_s break_index ok buf).2.2.count FaiEvent.closed) := by
  cases fai <;> rfl

/-- C10: when `fai_load` fails, `GetScaffoldData` returns `false` and the
output buffer holds exactly what it held before the call — not even the
header line is written — and no handle event takes place. -/
theorem c10_load_failure_frame (scaffold_name_s : String) (break_index : Int)
    (ok : Nat → Bool) (buf : List Char) :
    getScaffoldData none scaffold_name_s break_index ok buf = (false, buf, []) :=
  rfl

/-- C1: evaluation of `GetScaffoldData` at a 20-byte sequence with
`wrap_width = 10` (no out-of-bounds read is involved since 10 divides 20).
The loop appends a full block before testing the advance condition and the
tail step re-appends from the unadvanced offset, so the emitted body lines
are `ABCDEFGHIJ`, `KLMNOPQRST`, `KLMNOPQRST`: the final block is duplicated
and the newline-stripped body does not reconstruct the original sequence
(30 bytes instead of `seq_len = 20`), refuting the round-trip property. -/
theorem c1_wrap_roundtrip_fails :
    getScaffoldData (some (singleFai "chr" ("ABCDEFGHIJKLMNOPQRST").data 'Z')) "chr" 10
        allOk [] =
      (true, (">chr\nABCDEFGHIJ\nKLMNOPQRST\nKLMNOPQRST\n").data,
        [FaiEvent.opened, FaiEvent.closed]) ∧
    ¬ ((">chr\nABCDEFGHIJ\nKLMNOPQRST\nKLMNOPQRST\n").data.filter
          (fun c => c ≠ '\n')) =
        ('>' :: ("chr").data) ++ ("ABCDEFGHIJKLMNOPQRST").data := by
  decide

/-- C2: evaluation of `GetScaffoldData` at a 10-byte sequence with
`wrap_width = 10` (so `wrap_width ≥ seq_len`).  The loop body executes once
and emits a full block before its advance check, and the tail step then
emits the entire sequence again, so the body is two identical lines — not
the single line the claim states, and not the body the `wrap_width = 0`
path produces. -/
theorem c2_wrap_ge_len_not_single_line :
    getScaffoldData (some (singleFai "chr" ("ABCDEFGHIJ").data 'Z')) "chr" 10 allOk [] =
      (true, (">chr\nABCDEFGHIJ\nABCDEFGHIJ\n").data,
        [FaiEvent.opened, FaiEvent.closed]) ∧
    ¬ (getScaffoldData (some (singleFai "chr" ("ABCDEFGHIJ").data 'Z')) "chr" 10
          allOk []).2.1 =
        (">chr\nABCDEFGHIJ\n").data ∧
    ¬ (getScaffoldData (some (singleFai "chr" ("ABCDEFGHIJ").data 'Z')) "chr" 10
          allOk []).2.1 =
        (getScaffoldData (some (singleFai "chr" ("ABCDEFGHIJ").data 'Z')) "chr" 0
          allOk []).2.1 := by
  decide

/-- C3: evaluation of `GetScaffoldData` at a successfully fetched sequence
of length `seq_len = 0` with `wrap_width = 5`.  The loop body runs once
before any check, appending `wrap_width` bytes read from beyond the fetched
sequence (modelled here as the junk byte `Z`) plus a newline, so the buffer
is not the header line alone. -/
theorem c3_empty_seq_not_header_only :
    getScaffoldData (some (singleFai "chr" ([] : List Char) 'Z')) "chr" 5 allOk [] =
      (true, (">chr\nZZZZZ\n").data, [FaiEvent.opened, FaiEvent.closed]) ∧
    ¬ (getScaffoldData (some (singleFai "chr" ([] : List Char) 'Z')) "chr" 5
          allOk []).2.1 =
        (">chr\n").data := by
  decide

/-- C4: evaluation of `GetScaffoldData` at a 10-byte sequence with
`wrap_width = 5`, an exact positive multiple.  After the loop's last full
block, `i` still sits at the start of that block, so the tail check
`seq_len > i` holds and the tail re-appends the final 5 bytes: it
contributes 5 additional bytes rather than zero, and the last line is
emitted twice. -/
theorem c4_exact_multiple_tail_reappends :
    getScaffoldData (some (singleFai "chr" ("ABCDEFGHIJ").data 'Z')) "chr" 5 allOk [] =
      (true, (">chr\nABCDE\nFGHIJ\nFGHIJ\n").data, [FaiEvent.opened, FaiEvent.closed]) ∧
    ¬ ((">chr\nABCDE\nFGHIJ\nFGHIJ\n").data.filter (fun c => c ≠ '\n')) =
        ('>' :: ("chr").data) ++ ("ABCDEFGHIJ").data := by
  decide

/-- C5 counterexample: with `wrap_width = 0` the unwrapped path of
`GetScaffoldData` appends the sequence with no terminating newline — the
spec's own example of the full record `">chr1A\n" ++ sequence ++ "\n"` is
not what the code produces. -/
theorem c5_counterexample :
    (getScaffoldData (some (singleFai "chr1A" ("ACGTACGTACGTACGTACGTACGTA").data 'Z'))
        "chr1A" 0 allOk []).2.1 =
      (">chr1A\nACGTACGTACGTACGTACGTACGTA").data ∧
    ¬ (getScaffoldData (some (singleFai "chr1A" ("ACGTACGTACGTACGTACGTACGTA").data 'Z'))
          "chr1A" 0 allOk []).2.1 =
        (">chr1A\nACGTACGTACGTACGTACGTACGTA\n").data := by
  decide

/-- C5 (amended): for `wrap_width = 0`, a successful fetch with every
buffer write succeeding appends the entire sequence as a single block with
no interior newlines and no terminating newline, so the full record is
`">" + scaffold_name + "\n" + sequence` — one header line and one unwrapped
body line that the code leaves unterminated. -/
theorem c5_unwrapped_single_block (scaffold_name_s : String) (seq : List Char)
    (junk : Char) (buf : List Char) :
    getScaffoldData (some (singleFai scaffold_name_s seq junk)) scaffold_name_s 0
        allOk buf =
      (true, buf ++ (('>' :: scaffold_name_s.data) ++ ['\n']) ++ seq,
        [FaiEvent.opened, FaiEvent.closed]) := by
  simp only [getScaffoldData, getScaffoldBody, singleFai, appendBB, allOk, if_pos,
    if_true, List.append_assoc]
  have h0 : ¬ ((0 : Int) < 0) := by decide
  rw [if_neg h0]
  simp [readMem_memOf, List.append_assoc]

/-- Job statuses set through `SetServiceJobStatus` (`OS_STARTED`,
`OS_FAILED`, `OS_SUCCEEDED`). -/
inductive JobStatus where
  | started
  | failed
  | succeeded
  deriving DecidableEq, Repr

/-- A `ServiceJob` record: the statuses it was set to, in order, and the
error messages attached with `AddGeneralErrorMessageToServiceJob`. -/
structure ServiceJobRec where
  statuses : List JobStatus
  errors : List String
  deriving DecidableEq, Repr

/-- The parameter values visible to `RunSamToolsService`: the `SS_INDEX`
string, the `SS_SCAFFOLD` string (outer `none` models a failed parameter
lookup, inner `none` a `NULL` value), and the optional unsigned line-break
value. -/
structure RunParams where
  indexParam : Option String
  scaffoldLookup : Option (Option String)
  lineBreak : Option Nat
  deriving Repr

/-- External outcomes the orchestration depends on: allocation successes,
JSON construction successes, and the jobs produced by `RunPairedServices`
(whose count is `num_jobs_ran`). -/
structure RunEnv where
  jobSetOk : Bool
  bufferOk : Bool
  jobOk : Bool
  jsonOk : Bool
  resourceOk : Bool
  addResultOk : Bool
  remoteJobs : List ServiceJobRec
  deriving Repr

/-- The observable outcome of `RunSamToolsService`: the job set (`none`
when `AllocateServiceJobSet` failed, so `se_jobs_p` is `NULL`) and the
messages sent to the server log with `PrintErrors`. -/
structure RunOutcome where
  jobs : Option (List ServiceJobRec)
  logs : List String
  deriving DecidableEq, Repr

/-- Conversion of the `uint32` line-break parameter value to the C `int`
argument of `GetScaffoldData`. -/
def uint32ToInt (v : Nat) : Int :=
  let m : Nat := v % 2 ^ 32
  if m < 2 ^ 31 then (m : Int) else (m : Int) - 2 ^ 32

/-- `S_DEFAULT_LINE_BREAK_INDEX`. -/
def S_DEFAULT_LINE_BREAK_INDEX : Nat := 60

/-- The `break_index` passed to `GetScaffoldData`:
`index_p ? *index_p : S_DEFAULT_LINE_BREAK_INDEX`. -/
def effectiveBreak (lineBreak : Option Nat) : Int :=
  match lineBreak with
  | some v => uint32ToInt v
  | none => uint32ToInt S_DEFAULT_LINE_BREAK_INDEX

/-- The result handling inside the `if (job_p)` block of
`RunSamToolsService`, given whether `GetScaffoldData` succeeded: the job is
set to `OS_STARTED`, logged, preemptively set to `OS_FAILED`, and ends
`OS_SUCCEEDED` exactly when the fetch, the JSON result construction
(`json_string` and `GetDataResourceAsJSONByParts`) and
`AddResultToServiceJob` all succeed; otherwise an error message is attached
to the job. -/
def runJobOutcome (fetched : Bool) (scaffold_s : String) (env : RunEnv) : RunOutcome :=
  if fetched then
    if env.jsonOk && env.resourceOk then
      if env.addResultOk then
        ⟨some [⟨[JobStatus.started, JobStatus.failed, JobStatus.succeeded], []⟩], []⟩
      else
        ⟨some [⟨[JobStatus.started, JobStatus.failed], ["Failed to add result"]⟩],
          ["Failed to add result"]⟩
    else
      ⟨some [⟨[JobStatus.started, JobStatus.failed],
          ["Create sequence error" ++ scaffold_s]⟩],
        ["Failed to build json result"]⟩
  else
    ⟨some [⟨[JobStatus.started, JobStatus.failed], ["Failed to get scaffold data"]⟩], []⟩

/-- `RunSamToolsService`.  `loadIndex` models `fai_load` over the file
system (applied to the selected entry's possibly-`NULL` Fasta filename).
On a resolver hit the single local job is driven through the statuses of
`runJobOutcome`.  On a resolver miss, `RunPairedServices` runs; when it
reports zero jobs the code only writes the (mislabelled) server-log line
`"Failed to get input filename"` — no job record is created and no error
is attached anywhere. -/
def RunSamToolsService (registry : List IndexData)
    (loadIndex : Option String → Option Fai) (params : RunParams) (env : RunEnv)
    (ok : Nat → Bool) : RunOutcome :=
  if env.jobSetOk then
    match GetSelectedIndexData registry params.indexParam with
    | some sel =>
        match params.scaffoldLookup with
        | none => ⟨some [], ["Failed to get Scaffold parameter"]⟩
        | some none => ⟨some [], ["Failed to get scaffold"]⟩
        | some (some scaffold_s) =>
            if env.bufferOk then
              if env.jobOk then
                runJobOutcome
                  (getScaffoldData (loadIndex sel.id_fasta_filename_s) scaffold_s
                    (effectiveBreak params.lineBreak) ok []).1
                  scaffold_s env
              else ⟨some [], []⟩
            else ⟨some [], ["Failed to allocate byte buffer to store scaffold data"]⟩
    | none =>
        if env.remoteJobs.length = 0 then
          ⟨some env.remoteJobs, ["Failed to get input filename"]⟩
        else ⟨some env.remoteJobs, []⟩
  else ⟨none, []⟩

theorem runJobOutcome_statuses (fetched : Bool) (scaffold_s : String) (env : RunEnv)
    (j : ServiceJobRec) (hj : j ∈ (runJobOutcome fetched scaffold_s env).jobs.getD []) :
    j.statuses = [JobStatus.started, JobStatus.failed] ∨
    j.statuses = [JobStatus.started, JobStatus.failed, JobStatus.succeeded] := by
  rcases fetched with _ | _
  · simp [runJobOutcome] at hj
    rw [hj]
    exact Or.inl rfl
  · by_cases h1 : (env.jsonOk && env.resourceOk) = true
    · by_cases h2 : env.addResultOk = true
      · simp [runJobOutcome, h1, h2] at hj
        rw [hj]
        exact Or.inr rfl
      · simp [runJobOutcome, h1, h2] at hj
        rw [hj]
        exact Or.inl rfl
    · simp [runJobOutcome, h1] at hj
      rw [hj]
      exact Or.inl rfl

/-- Registry for the C8 scenario: one local entry. -/
def c8Registry : List IndexData := [⟨some "wheatA", some "/data/wheatA.fa"⟩]

/-- Request for the C8 scenario: identifier `"unknownX"` matching no local
entry. -/
def c8Params : RunParams := ⟨some "unknownX", some (some "chr1A"), some 60⟩

/-- Environment for the C8 scenario: all allocations succeed and zero peer
stores are configured, so `RunPairedServices` runs zero jobs. -/
def c8Env : RunEnv := ⟨true, true, true, true, true, true, []⟩

/-- C8 counterexample: for a request whose identifier matches no local
entry and with zero peer stores attempted, `RunSamToolsService` returns an
empty job set: no job record exists at all, so no record carries a `Failed`
terminal status, and no `NoStoreAvailable`-style error is attached — the
only trace is a server log line. -/
theorem c8_counterexample :
    RunSamToolsService c8Registry (fun _ => none) c8Params c8Env allOk =
      ⟨some [], ["Failed to get input filename"]⟩ := by
  decide

/-- C8 (amended): when the job set is allocated, a resolver miss hands the
request to the paired services and, when zero peer jobs ran, produces no
job record — only the server-log line `"Failed to get input filename"` —
while on the hit path any job that is created is driven through `Started`,
then the preemptive `Failed`, ending in exactly one terminal status
(`Failed`, or `Succeeded` when the fetch and result handling succeed). -/
theorem c8_job_statuses (registry : List IndexData)
    (loadIndex : Option String → Option Fai) (params : RunParams) (env : RunEnv)
    (ok : Nat → Bool) (hset : env.jobSetOk = true) :
    (GetSelectedIndexData registry params.indexParam = none →
      (RunSamToolsService registry loadIndex params env ok).jobs = some env.remoteJobs ∧
      (env.remoteJobs = [] →
        (RunSamToolsService registry loadIndex params env ok).logs =
          ["Failed to get input filename"])) ∧
    (∀ sel, GetSelectedIndexData registry params.indexParam = some sel →
      ∀ j ∈ ((RunSamToolsService registry loadIndex params env ok).jobs.getD []),
        j.statuses = [JobStatus.started, JobStatus.failed] ∨
        j.statuses = [JobStatus.started, JobStatus.failed, JobStatus.succeeded]) := by
  constructor
  · intro hmiss
    by_cases hr : env.remoteJobs.length = 0
    · refine ⟨?_, fun _ => ?_⟩ <;> simp [RunSamToolsService, hset, hmiss, hr]
    · refine ⟨?_, fun h0 => absurd (by rw [h0]; rfl) hr⟩
      simp [RunSamToolsService, hset, hmiss, hr]
  · intro sel hsel j hj
    obtain ⟨ip, sl, lb⟩ := params
    rcases sl with _ | msc
    · simp [RunSamToolsService, hset, hsel] at hj
    · rcases msc with _ | s
      · simp [RunSamToolsService, hset, hsel] at hj
      · by_cases hbuf : env.bufferOk = true
        · by_cases hjob : env.jobOk = true
          · simp only [RunSamToolsService, hset, hsel, hbuf, hjob, if_true] at hj
            exact runJobOutcome_statuses _ _ _ _ hj
          · simp [RunSamToolsService, hset, hsel, hbuf, hjob] at hj
        · simp [RunSamToolsService, hset, hsel, hbuf] at hj

/-- Witness for `c8_job_statuses` at the concrete C8 scenario. -/
theorem c8_job_statuses_witness :
    (RunSamToolsService c8Registry (fun _ => none) c8Params c8Env allOk).jobs =
      some c8Env.remoteJobs ∧
    (RunSamToolsService c8Registry (fun _ => none) c8Params c8Env allOk).logs =
      ["Failed to get input filename"] := by
  have h := (c8_job_statuses c8Registry (fun _ => none) c8Params c8Env allOk rfl).1
    (by decide)
  exact ⟨h.1, h.2 rfl⟩

end SamtoolsService
